import Mathlib

/-!
Shallow embedding of the search-resolution engine of the vleerapp/api
repository, for checking its natural-language specification.

The repository ships two interchangeable index-backend variants of the
engine, both named `SearchClient`:
  * `src/manticore.rs`  — the Manticore (id-only) variant: SQL-over-HTTP
    index queries, batched relational hydration;
  * `src/search.rs`     — the Elasticsearch variant: JSON query bodies,
    per-hit relational hydration, post-hydration substring filters.
Both are embedded below, in namespaces `Manticore` and `Es`.

Modelling conventions:
  * The index backend is external; its document set is a `List IndexDoc`
    (in relevance order for the query at hand) and the full-text MATCH
    semantics is an abstract boolean predicate passed as a parameter.
    The SQL or JSON paging (`LIMIT offset, limit` / `from`+`size`) is
    `List.drop`/`List.take` on the matching documents.
  * The relational store is a `Db` of rows; the SQL aggregate
    `string_agg(DISTINCT name, \x7b..\x7d)` over the joined association is
    `stringAgg` (dedup + comma-join; join order is unspecified in the
    source and irrelevant to every claim below). A NULL aggregate (no
    associated rows) is modelled as the empty string, matching the
    `unwrap_or_default()` reads; such a record is never surfaced either way.
  * Store failure is a `failing` flag on `Db`: any issued relational query
    errors when set. Fallible calls return `Except Unit`.
  * Hydration functions also return the number of relational queries they
    issue, so the round-trip claims are statable.
  * Machine integers (i32/i64) carry no claim-relevant overflow here and
    are modelled as `Int` (counts as `Nat`).
-/

/-- Aggregated relational projection of a song (`Song` in
`src/models/metadata.rs`, with the field names used at the construction
sites in `manticore.rs`/`search.rs`). -/
structure Song where
  id : String
  name : String
  artist : String
  album : String
  image : String
  disc_number : Int
  track_number : Int
  duration : Int
  isrc : String
  date : String
deriving DecidableEq, Repr

/-- Relational projection of an artist. -/
structure Artist where
  id : String
  name : String
  image : String
deriving DecidableEq, Repr

/-- Aggregated relational projection of an album. -/
structure Album where
  id : String
  name : String
  artist : String
  image : String
  date : String
  track_count : Int
  upc : String
  label : Option String
deriving DecidableEq, Repr

/-- Tagged union over the three entity kinds (`SearchResultItem`). -/
inductive SearchResultItem where
  | song (s : Song)
  | artist (a : Artist)
  | album (al : Album)
deriving DecidableEq, Repr

/-- `AdvancedSearchResult \x7bitems, total\x7d`. -/
structure AdvancedSearchResult where
  items : List SearchResultItem
  total : Nat
deriving DecidableEq, Repr

/-- A document of the full-text index: id plus item type (the only two
fields the engine reads back from the index). -/
structure IndexDoc where
  doc_id : String
  item_type : String
deriving DecidableEq, Repr

/-- A `songs` row joined with its artist/album associations: the lists
hold the associated names feeding `string_agg(DISTINCT ..)`. -/
structure SongRow where
  id : String
  name : String
  image : String
  duration : Int
  disc_number : Int
  track_number : Int
  isrc : String
  date : String
  artistNames : List String
  albumNames : List String
deriving DecidableEq, Repr

/-- An `artists` row. -/
structure ArtistRow where
  id : String
  name : String
  image : String
deriving DecidableEq, Repr

/-- An `albums` row joined with its artist associations. -/
structure AlbumRow where
  id : String
  name : String
  image : String
  date : Option String
  track_count : Int
  upc : String
  label : Option String
  artistNames : List String
deriving DecidableEq, Repr

/-- The relational store: its tables plus a failure switch (when
`failing` is set, every relational query that is actually issued
returns an error, modelling an unreachable store). -/
structure Db where
  songs : List SongRow
  artists : List ArtistRow
  albums : List AlbumRow
  failing : Bool

/-- Result of a fallible relational call. -/
abbrev DbResult (α : Type) : Type := Except Unit α

/-- `string_agg(DISTINCT name, ..)` over the joined names: deduplicate,
comma-join. Empty association set yields the empty string (the code reads
the NULL aggregate with `unwrap_or_default`). -/
def stringAgg (names : List String) : String :=
  String.intercalate ", " names.eraseDups

/-- Build the `Song` value a row hydrates to. -/
def songOfRow (r : SongRow) : Song :=
  { id := r.id, name := r.name, artist := stringAgg r.artistNames,
    album := stringAgg r.albumNames, image := r.image,
    disc_number := r.disc_number, track_number := r.track_number,
    duration := r.duration, isrc := r.isrc, date := r.date }

/-- Build the `Artist` value a row hydrates to. -/
def artistOfRow (r : ArtistRow) : Artist :=
  { id := r.id, name := r.name, image := r.image }

/-- Build the `Album` value a row hydrates to. -/
def albumOfRow (r : AlbumRow) : Album :=
  { id := r.id, name := r.name, artist := stringAgg r.artistNames,
    image := r.image, date := r.date.getD "",
    track_count := r.track_count, upc := r.upc, label := r.label }

/-- Rust `str::contains` (substring test), after both sides were
lowercased by the caller. -/
def containsSub (hay needle : String) : Bool :=
  (List.range (hay.data.length + 1)).any
    (fun i => needle.data.isPrefixOf (hay.data.drop i))

/-- The id carried by a result item. -/
def itemId : SearchResultItem → String
  | .song s => s.id
  | .artist a => a.id
  | .album al => al.id

/-- Rust `str::to_lowercase`, modelled as a character-wise lowering (the
texts involved are ASCII-oriented display strings). -/
def lowercase (s : String) : String := String.mk (s.data.map Char.toLower)

/-- The ISRC post-filter on songs (`song.isrc.to_lowercase() !=
isrc.to_lowercase()` skips the item); both variants share it verbatim. -/
def isrcKeep (isrc_filter : Option String) (s : Song) : Bool :=
  match isrc_filter with
  | some i => lowercase s.isrc == lowercase i
  | none => true

/-- The UPC post-filter on albums, shared verbatim by both variants. -/
def upcKeep (upc_filter : Option String) (al : Album) : Bool :=
  match upc_filter with
  | some u => lowercase al.upc == lowercase u
  | none => true

namespace Manticore

/-- One `str::replace(c, " ")` step: map the character to a space. -/
def replaceChar (c : Char) (l : List Char) : List Char :=
  l.map (fun x => if x == c then ' ' else x)

/-- The `clean` closure of `manticore.rs::search_advanced`: six chained
single-character replacements, each to a space. -/
def clean (s : String) : String :=
  String.mk
    (replaceChar '^'
      (replaceChar '!'
        (replaceChar '@'
          (replaceChar '\\'
            (replaceChar '"'
              (replaceChar '\'' s.data))))))

/-- The match expression built from the cleaned query plus the optional
artist/album filter clauses (`@artist_name ..` / `@album_name ..`). -/
def matchExpr (query : String)
    (artist_filter album_filter : Option String) : String :=
  let base := clean query
  let withArtist :=
    match artist_filter with
    | some a => base ++ " @artist_name " ++ clean a
    | none => base
  match album_filter with
  | some al => withArtist ++ " @album_name " ++ clean al
  | none => withArtist

/-- The `item_type` the SQL constrains to: the explicit type when given,
otherwise `song` (the no-type branch of `search_advanced`). -/
def queryType (item_type : Option String) : String :=
  item_type.getD "song"

/-- Documents matching `MATCH(expr) AND item_type = t`, in relevance
order; `matches` is the abstract MATCH semantics of the engine. -/
def matching (matchFn : String → IndexDoc → Bool) (idx : List IndexDoc)
    (expr t : String) : List IndexDoc :=
  idx.filter (fun d => matchFn expr d && d.item_type == t)

/-- The ranked-id page `SELECT doc_id .. LIMIT offset, limit`. -/
def pageIds (matchFn : String → IndexDoc → Bool) (idx : List IndexDoc)
    (expr t : String) (limit offset : Nat) : List String :=
  (((matching matchFn idx expr t).drop offset).take limit).map (·.doc_id)

/-- The `SELECT COUNT(*) .. WHERE MATCH(expr) AND item_type = t` result. -/
def totalCount (matchFn : String → IndexDoc → Bool) (idx : List IndexDoc)
    (expr t : String) : Nat :=
  (matching matchFn idx expr t).length

/-- The map entry a fetched song row contributes: rows whose artist or
album aggregate is empty are skipped (`continue`). -/
def songEntry (r : SongRow) : Option (String × Song) :=
  if stringAgg r.artistNames == "" || stringAgg r.albumNames == "" then none
  else some (r.id, songOfRow r)

/-- The map entry a fetched album row contributes: rows whose artist
aggregate is empty are skipped. -/
def albumEntry (r : AlbumRow) : Option (String × Album) :=
  if stringAgg r.artistNames == "" then none
  else some (r.id, albumOfRow r)

/-- `fetch_songs_batch`: empty id set returns the empty map without a
query; otherwise one batched `WHERE s.id = ANY($1)` query. Returns the
id-to-song map plus the number of relational queries issued. -/
def fetch_songs_batch (db : Db) (ids : List String) :
    DbResult (List (String × Song) × Nat) :=
  if ids.isEmpty then .ok ([], 0)
  else if db.failing then .error ()
  else .ok (((db.songs.filter (fun r => ids.contains r.id)).filterMap songEntry), 1)

/-- `fetch_artists_batch`: no consistency guard on artists. -/
def fetch_artists_batch (db : Db) (ids : List String) :
    DbResult (List (String × Artist) × Nat) :=
  if ids.isEmpty then .ok ([], 0)
  else if db.failing then .error ()
  else .ok (((db.artists.filter (fun r => ids.contains r.id)).map
    (fun r => (r.id, artistOfRow r))), 1)

/-- `fetch_albums_batch`. -/
def fetch_albums_batch (db : Db) (ids : List String) :
    DbResult (List (String × Album) × Nat) :=
  if ids.isEmpty then .ok ([], 0)
  else if db.failing then .error ()
  else .ok (((db.albums.filter (fun r => ids.contains r.id)).filterMap albumEntry), 1)

/-- `manticore.rs::search_advanced`: build the match expression, run the
ranked-id page query and the count query, batch-hydrate the single
entity type of the call, walk the ranked ids applying the ISRC/UPC
post-filters, and assemble `\x7bitems, total\x7d`. The second component is the
number of relational queries issued. An unrecognized explicit item type
hydrates nothing (`_ => \x7b\x7d`). -/
def search_advanced (matchFn : String → IndexDoc → Bool)
    (idx : List IndexDoc) (db : Db) (query : String)
    (item_type artist_filter album_filter isrc_filter upc_filter : Option String)
    (limit offset : Nat) : DbResult (AdvancedSearchResult × Nat) := do
  let expr := matchExpr query artist_filter album_filter
  let t := queryType item_type
  let ids := pageIds matchFn idx expr t limit offset
  let total := totalCount matchFn idx expr t
  if t = "song" then do
    let (m, q) ← fetch_songs_batch db ids
    let items := ids.filterMap (fun id =>
      match m.lookup id with
      | some s => if isrcKeep isrc_filter s then some (.song s) else none
      | none => none)
    return ({ items := items, total := total }, q)
  else if t = "artist" then do
    let (m, q) ← fetch_artists_batch db ids
    let items := ids.filterMap (fun id =>
      match m.lookup id with
      | some a => some (.artist a)
      | none => none)
    return ({ items := items, total := total }, q)
  else if t = "album" then do
    let (m, q) ← fetch_albums_batch db ids
    let items := ids.filterMap (fun id =>
      match m.lookup id with
      | some al => if upcKeep upc_filter al then some (.album al) else none
      | none => none)
    return ({ items := items, total := total }, q)
  else return ({ items := [], total := total }, 0)

/-- `fetch_song_details`: single-row hydration with the same aggregate
guard as the batch. -/
def fetch_song_details (db : Db) (id : String) : DbResult (Option Song) :=
  if db.failing then .error ()
  else
    match db.songs.find? (fun r => r.id == id) with
    | none => .ok none
    | some r =>
      if stringAgg r.artistNames == "" || stringAgg r.albumNames == "" then .ok none
      else .ok (some (songOfRow r))

/-- `fetch_artist_details`: no guard. -/
def fetch_artist_details (db : Db) (id : String) : DbResult (Option Artist) :=
  if db.failing then .error ()
  else
    match db.artists.find? (fun r => r.id == id) with
    | none => .ok none
    | some r => .ok (some (artistOfRow r))

/-- `fetch_album_details`: artist-aggregate guard. -/
def fetch_album_details (db : Db) (id : String) : DbResult (Option Album) :=
  if db.failing then .error ()
  else
    match db.albums.find? (fun r => r.id == id) with
    | none => .ok none
    | some r =>
      if stringAgg r.artistNames == "" then .ok none
      else .ok (some (albumOfRow r))

/-- `get_song_by_id`: point lookup of the index document, absent when no
document or wrong type, else single-row hydration. -/
def get_song_by_id (idx : List IndexDoc) (db : Db) (id : String) :
    DbResult (Option Song) :=
  match idx.find? (fun d => d.doc_id == id) with
  | none => .ok none
  | some d =>
    if d.item_type == "song" then fetch_song_details db id
    else .ok none

/-- `get_artist_by_id`. -/
def get_artist_by_id (idx : List IndexDoc) (db : Db) (id : String) :
    DbResult (Option Artist) :=
  match idx.find? (fun d => d.doc_id == id) with
  | none => .ok none
  | some d =>
    if d.item_type == "artist" then fetch_artist_details db id
    else .ok none

/-- `get_album_by_id`. -/
def get_album_by_id (idx : List IndexDoc) (db : Db) (id : String) :
    DbResult (Option Album) :=
  match idx.find? (fun d => d.doc_id == id) with
  | none => .ok none
  | some d =>
    if d.item_type == "album" then fetch_album_details db id
    else .ok none

end Manticore

namespace Es

/-- The search request body `search.rs::search_advanced` builds: the raw
query text goes into the `multi_match` clause unchanged, the optional
item type becomes a `term` filter clause (no clause when absent), plus
`size`/`from` paging. -/
structure SearchBody where
  query : String
  item_type_filter : Option String
  size : Nat
  fromOff : Nat
deriving DecidableEq, Repr

/-- Build the search body from the call arguments. -/
def searchBody (query : String) (item_type : Option String)
    (limit offset : Nat) : SearchBody :=
  { query := query, item_type_filter := item_type,
    size := limit, fromOff := offset }

/-- The `filter` clauses: a `term \x7bitem_type\x7d` test when present,
no constraint otherwise. -/
def typeMatches (f : Option String) (d : IndexDoc) : Bool :=
  match f with
  | some t => d.item_type == t
  | none => true

/-- Documents matching the body (relevance-ranked `multi_match`
semantics abstract in `matchFn`, filtered by the optional type term). -/
def matching (matchFn : String → IndexDoc → Bool) (idx : List IndexDoc)
    (body : SearchBody) : List IndexDoc :=
  idx.filter (fun d => matchFn body.query d && typeMatches body.item_type_filter d)

/-- The hits page (`from` + `size`). -/
def hitsPage (matchFn : String → IndexDoc → Bool) (idx : List IndexDoc)
    (body : SearchBody) : List IndexDoc :=
  ((matching matchFn idx body).drop body.fromOff).take body.size

/-- `hits.total.value`: count of matching documents. -/
def totalCount (matchFn : String → IndexDoc → Bool) (idx : List IndexDoc)
    (body : SearchBody) : Nat :=
  (matching matchFn idx body).length

/-- `search.rs::fetch_song_details`: single-row hydration with the
empty-aggregate guard. -/
def fetch_song_details (db : Db) (id : String) : DbResult (Option Song) :=
  if db.failing then .error ()
  else
    match db.songs.find? (fun r => r.id == id) with
    | none => .ok none
    | some r =>
      if stringAgg r.artistNames == "" || stringAgg r.albumNames == "" then .ok none
      else .ok (some (songOfRow r))

/-- `search.rs::fetch_artist_details`: no guard. -/
def fetch_artist_details (db : Db) (id : String) : DbResult (Option Artist) :=
  if db.failing then .error ()
  else
    match db.artists.find? (fun r => r.id == id) with
    | none => .ok none
    | some r => .ok (some (artistOfRow r))

/-- `search.rs::fetch_album_details`: artist-aggregate guard. -/
def fetch_album_details (db : Db) (id : String) : DbResult (Option Album) :=
  if db.failing then .error ()
  else
    match db.albums.find? (fun r => r.id == id) with
    | none => .ok none
    | some r =>
      if stringAgg r.artistNames == "" then .ok none
      else .ok (some (albumOfRow r))

/-- Per-hit processing of the `search_advanced` result loop: skip hits
with empty id or type; otherwise hydrate the hit with one per-id
relational query (`if let Ok(Some(..))`: a relational error is treated
like absence and the hit silently skipped), then apply the
post-hydration filters. Returns the produced item (if any) and the
number of relational queries issued for this hit. -/
def processHit (db : Db)
    (artist_filter album_filter isrc_filter upc_filter : Option String)
    (d : IndexDoc) : Option SearchResultItem × Nat :=
  if d.doc_id == "" || d.item_type == "" then (none, 0)
  else if d.item_type == "song" then
    match fetch_song_details db d.doc_id with
    | .ok (some song) =>
      if (match artist_filter with
          | some a => containsSub (lowercase song.artist) (lowercase a)
          | none => true)
         && (match album_filter with
             | some al => containsSub (lowercase song.album) (lowercase al)
             | none => true)
         && isrcKeep isrc_filter song
      then (some (.song song), 1) else (none, 1)
    | _ => (none, 1)
  else if d.item_type == "artist" then
    match fetch_artist_details db d.doc_id with
    | .ok (some artist) =>
      if (match artist_filter with
          | some a => containsSub (lowercase artist.name) (lowercase a)
          | none => true)
      then (some (.artist artist), 1) else (none, 1)
    | _ => (none, 1)
  else if d.item_type == "album" then
    match fetch_album_details db d.doc_id with
    | .ok (some album) =>
      if (match artist_filter with
          | some a => containsSub (lowercase album.artist) (lowercase a)
          | none => true)
         && upcKeep upc_filter album
      then (some (.album album), 1) else (none, 1)
    | _ => (none, 1)
  else (none, 0)

/-- `search.rs::search_advanced`: run the index query, take `total` from
the response, walk the hits in rank order hydrating each with a per-id
query and applying the post-filters. Never fails on relational errors
(they are swallowed per hit). The second component is the number of
relational queries issued. -/
def search_advanced (matchFn : String → IndexDoc → Bool)
    (idx : List IndexDoc) (db : Db) (query : String)
    (item_type artist_filter album_filter isrc_filter upc_filter : Option String)
    (limit offset : Nat) : AdvancedSearchResult × Nat :=
  let body := searchBody query item_type limit offset
  let hits := hitsPage matchFn idx body
  let items := hits.filterMap
    (fun d => (processHit db artist_filter album_filter isrc_filter upc_filter d).1)
  let queries := (hits.map
    (fun d => (processHit db artist_filter album_filter isrc_filter upc_filter d).2)).sum
  ({ items := items, total := totalCount matchFn idx body }, queries)

/-- `search.rs::get_song_by_id`: document point-get (404 → absent),
absent on type mismatch, else single-row hydration. -/
def get_song_by_id (idx : List IndexDoc) (db : Db) (id : String) :
    DbResult (Option Song) :=
  match idx.find? (fun d => d.doc_id == id) with
  | none => .ok none
  | some d =>
    if d.item_type == "song" then fetch_song_details db id
    else .ok none

/-- `search.rs::get_artist_by_id`. -/
def get_artist_by_id (idx : List IndexDoc) (db : Db) (id : String) :
    DbResult (Option Artist) :=
  match idx.find? (fun d => d.doc_id == id) with
  | none => .ok none
  | some d =>
    if d.item_type == "artist" then fetch_artist_details db id
    else .ok none

/-- `search.rs::get_album_by_id`. -/
def get_album_by_id (idx : List IndexDoc) (db : Db) (id : String) :
    DbResult (Option Album) :=
  match idx.find? (fun d => d.doc_id == id) with
  | none => .ok none
  | some d =>
    if d.item_type == "album" then fetch_album_details db id
    else .ok none

end Es

/-!  Concrete fixtures used by witnesses and counterexamples.  -/

/-- The character-level sanitization the spec describes: quote characters,
backslash, `@`, `!` and `^` become a space, everything else is kept. -/
def sanitizedChar (c : Char) : Char :=
  if c = '\'' || c = '"' || c = '\\' || c = '@' || c = '!' || c = '^'
  then ' ' else c

/-- A concrete song row with its associations. -/
def beatlesRow : SongRow :=
  { id := "song0000000000s1", name := "Yesterday", image := "img",
    duration := 125, disc_number := 1, track_number := 1,
    isrc := "GBAYE6500521", date := "1965-08-06",
    artistNames := ["The Beatles"], albumNames := ["Help"] }

/-- The song it hydrates to. -/
def beatlesSong : Song := songOfRow beatlesRow

/-- A concrete artist row. -/
def beatlesArtistRow : ArtistRow :=
  { id := "artist00000000a1", name := "The Beatles", image := "img" }

/-- A healthy store holding the fixtures. -/
def db1 : Db :=
  { songs := [beatlesRow], artists := [beatlesArtistRow],
    albums := [], failing := false }

/-- The same store, unreachable. -/
def db1Failing : Db := { db1 with failing := true }

/-- Index documents for the fixtures. -/
def songDoc : IndexDoc := ⟨"song0000000000s1", "song"⟩

/-- The artist document. -/
def artistDoc : IndexDoc := ⟨"artist00000000a1", "artist"⟩

/-- A two-document index. -/
def idx1 : List IndexDoc := [songDoc, artistDoc]

/-- A second song row/document pair, for multi-hit pages. -/
def songRow2 : SongRow :=
  { id := "song0000000000s2", name := "Yesterday Tomorrow", image := "img",
    duration := 131, disc_number := 1, track_number := 2,
    isrc := "USUM71500000", date := "2015-01-01",
    artistNames := ["Someone"], albumNames := ["Somewhere"] }

/-- Its index document. -/
def songDoc2 : IndexDoc := ⟨"song0000000000s2", "song"⟩

/-- A store with the two songs. -/
def db2 : Db :=
  { songs := [beatlesRow, songRow2], artists := [], albums := [],
    failing := false }

/-- A MATCH semantics under which every document matches. -/
def matchAll : String → IndexDoc → Bool := fun _ _ => true

/-!  Helper lemmas shared by several claims.  -/

/-- A successful assoc-list lookup exhibits a member pair. -/
theorem lookup_mem {β : Type} (l : List (String × β)) (k : String) (v : β)
    (h : List.lookup k l = some v) : (k, v) ∈ l := by
  induction l with
  | nil => simp [List.lookup] at h
  | cons p t ih =>
    rw [show p = (p.1, p.2) from rfl] at h ⊢
    rw [List.lookup_cons] at h
    by_cases hk : (k == p.1) = true
    · simp [hk] at h
      simp [eq_of_beq hk, h]
    · simp [hk] at h
      exact List.mem_cons_of_mem _ (ih h)

/-- Elements produced by a `filterMap`, projected back to their origin,
form a sublist of the projected source list. -/
theorem filterMap_map_sublist {α β γ : Type} (l : List α) (f : α → Option β)
    (g : β → γ) (h : α → γ) (H : ∀ a b, f a = some b → g b = h a) :
    List.Sublist ((l.filterMap f).map g) (l.map h) := by
  induction l with
  | nil => simp
  | cons a t ih =>
    cases hfa : f a with
    | none => simp [List.filterMap_cons, hfa]; exact ih.cons (h a)
    | some b =>
      simp [List.filterMap_cons, hfa, H a b hfa]
      exact ih

/-- What a successful lookup in the batched song map guarantees: the
entity carries the key as id, the key was requested, and the
consistency guard held. -/
theorem songs_batch_lookup {db : Db} {ids : List String}
    {m : List (String × Song)} {q : Nat}
    (h : Manticore.fetch_songs_batch db ids = .ok (m, q)) {k : String} {s : Song}
    (hl : List.lookup k m = some s) :
    s.id = k ∧ k ∈ ids ∧ s.artist ≠ "" ∧ s.album ≠ "" := by
  unfold Manticore.fetch_songs_batch at h
  split at h
  · simp at h
    obtain ⟨hm, _⟩ := h
    subst hm
    simp [List.lookup] at hl
  · split at h
    · simp at h
    · simp at h
      obtain ⟨hm, _⟩ := h
      subst hm
      have hmem := lookup_mem _ _ _ hl
      obtain ⟨r, hr, he⟩ := List.mem_filterMap.mp hmem
      obtain ⟨hrs, hrc⟩ := List.mem_filter.mp hr
      unfold Manticore.songEntry at he
      split at he
      · simp at he
      · rename_i hguard
        simp at he
        obtain ⟨hk, hs⟩ := he
        subst hk
        constructor
        · rw [← hs]; rfl
        · refine ⟨of_decide_eq_true hrc, ?_, ?_⟩ <;>
          · rw [← hs]
            simp only [songOfRow]
            simp only [Bool.or_eq_true, beq_iff_eq, not_or] at hguard
            simp_all

/-- A key present in an assoc list has a successful lookup. -/
theorem lookup_isSome_of_mem {β : Type} (l : List (String × β)) (k : String) (v : β)
    (h : (k, v) ∈ l) : ∃ w, List.lookup k l = some w := by
  induction l with
  | nil => simp at h
  | cons p t ih =>
    rw [show p = (p.1, p.2) from rfl] at h ⊢
    rw [List.lookup_cons]
    by_cases hk : (k == p.1) = true
    · exact ⟨p.2, by simp [hk]⟩
    · simp [hk]
      rcases List.mem_cons.mp h with heq | hmem
      · exact absurd (congrArg Prod.fst heq) (by simpa using (beq_iff_eq.not.mp hk))
      · exact ih hmem

/-- What a successful lookup in the batched artist map guarantees. -/
theorem artists_batch_lookup {db : Db} {ids : List String}
    {m : List (String × Artist)} {q : Nat}
    (h : Manticore.fetch_artists_batch db ids = .ok (m, q)) {k : String} {a : Artist}
    (hl : List.lookup k m = some a) :
    a.id = k ∧ k ∈ ids := by
  unfold Manticore.fetch_artists_batch at h
  split at h
  · simp at h
    obtain ⟨hm, _⟩ := h
    subst hm
    simp [List.lookup] at hl
  · split at h
    · simp at h
    · simp at h
      obtain ⟨hm, _⟩ := h
      subst hm
      have hmem := lookup_mem _ _ _ hl
      obtain ⟨r, hr, he⟩ := List.mem_map.mp hmem
      obtain ⟨hrs, hrc⟩ := List.mem_filter.mp hr
      simp at he
      obtain ⟨hk, ha⟩ := he
      subst hk
      exact ⟨by rw [← ha]; rfl, of_decide_eq_true hrc⟩

/-- An artist row whose id was requested always contributes a map entry:
artists are never dropped by a consistency guard. -/
theorem artists_batch_never_drops {db : Db} {ids : List String}
    {m : List (String × Artist)} {q : Nat}
    (h : Manticore.fetch_artists_batch db ids = .ok (m, q)) {r : ArtistRow}
    (hr : r ∈ db.artists) (hin : r.id ∈ ids) :
    ∃ a, List.lookup r.id m = some a := by
  unfold Manticore.fetch_artists_batch at h
  split at h
  · rename_i hemp
    rw [List.isEmpty_iff] at hemp
    subst hemp
    simp at hin
  · split at h
    · simp at h
    · simp at h
      obtain ⟨hm, _⟩ := h
      subst hm
      refine lookup_isSome_of_mem _ _ (artistOfRow r) (List.mem_map.mpr ⟨r, ?_, rfl⟩)
      exact List.mem_filter.mpr ⟨hr, by simpa using hin⟩

/-- What a successful lookup in the batched album map guarantees. -/
theorem albums_batch_lookup {db : Db} {ids : List String}
    {m : List (String × Album)} {q : Nat}
    (h : Manticore.fetch_albums_batch db ids = .ok (m, q)) {k : String} {al : Album}
    (hl : List.lookup k m = some al) :
    al.id = k ∧ k ∈ ids ∧ al.artist ≠ "" := by
  unfold Manticore.fetch_albums_batch at h
  split at h
  · simp at h
    obtain ⟨hm, _⟩ := h
    subst hm
    simp [List.lookup] at hl
  · split at h
    · simp at h
    · simp at h
      obtain ⟨hm, _⟩ := h
      subst hm
      have hmem := lookup_mem _ _ _ hl
      obtain ⟨r, hr, he⟩ := List.mem_filterMap.mp hmem
      obtain ⟨hrs, hrc⟩ := List.mem_filter.mp hr
      unfold Manticore.albumEntry at he
      split at he
      · simp at he
      · rename_i hguard
        simp at he
        obtain ⟨hk, hal⟩ := he
        subst hk
        refine ⟨by rw [← hal]; rfl, of_decide_eq_true hrc, ?_⟩
        rw [← hal]
        simp only [albumOfRow]
        simp only [beq_iff_eq] at hguard
        simp_all

/-- Shape of a successful Manticore single-song hydration: the id is the
requested one and the consistency guard held. -/
theorem mant_fetch_song_shape {db : Db} {id : String} {s : Song}
    (h : Manticore.fetch_song_details db id = .ok (some s)) :
    s.id = id ∧ s.artist ≠ "" ∧ s.album ≠ "" := by
  unfold Manticore.fetch_song_details at h
  split at h
  · simp at h
  · split at h
    · simp at h
    · rename_i r hfind
      split at h
      · simp at h
      · rename_i hguard
        simp at h
        have hid : r.id = id := by
          have := List.find?_some hfind
          simpa using this
        subst h
        refine ⟨by rw [← hid]; rfl, ?_, ?_⟩ <;>
        · simp only [songOfRow]
          simp only [Bool.or_eq_true, beq_iff_eq, not_or] at hguard
          simp_all

/-- Shape of a successful Es single-song hydration. -/
theorem es_fetch_song_shape {db : Db} {id : String} {s : Song}
    (h : Es.fetch_song_details db id = .ok (some s)) :
    s.id = id ∧ s.artist ≠ "" ∧ s.album ≠ "" := by
  unfold Es.fetch_song_details at h
  split at h
  · simp at h
  · split at h
    · simp at h
    · rename_i r hfind
      split at h
      · simp at h
      · rename_i hguard
        simp at h
        have hid : r.id = id := by
          have := List.find?_some hfind
          simpa using this
        subst h
        refine ⟨by rw [← hid]; rfl, ?_, ?_⟩ <;>
        · simp only [songOfRow]
          simp only [Bool.or_eq_true, beq_iff_eq, not_or] at hguard
          simp_all

/-- Shape of a successful Manticore single-artist hydration. -/
theorem mant_fetch_artist_shape {db : Db} {id : String} {a : Artist}
    (h : Manticore.fetch_artist_details db id = .ok (some a)) :
    a.id = id := by
  unfold Manticore.fetch_artist_details at h
  split at h
  · simp at h
  · split at h
    · simp at h
    · rename_i r hfind
      simp at h
      have hid : r.id = id := by
        have := List.find?_some hfind
        simpa using this
      subst h
      rw [← hid]; rfl

/-- Shape of a successful Es single-artist hydration. -/
theorem es_fetch_artist_shape {db : Db} {id : String} {a : Artist}
    (h : Es.fetch_artist_details db id = .ok (some a)) :
    a.id = id := by
  unfold Es.fetch_artist_details at h
  split at h
  · simp at h
  · split at h
    · simp at h
    · rename_i r hfind
      simp at h
      have hid : r.id = id := by
        have := List.find?_some hfind
        simpa using this
      subst h
      rw [← hid]; rfl

/-- Shape of a successful Manticore single-album hydration. -/
theorem mant_fetch_album_shape {db : Db} {id : String} {al : Album}
    (h : Manticore.fetch_album_details db id = .ok (some al)) :
    al.id = id ∧ al.artist ≠ "" := by
  unfold Manticore.fetch_album_details at h
  split at h
  · simp at h
  · split at h
    · simp at h
    · rename_i r hfind
      split at h
      · simp at h
      · rename_i hguard
        simp at h
        have hid : r.id = id := by
          have := List.find?_some hfind
          simpa using this
        subst h
        refine ⟨by rw [← hid]; rfl, ?_⟩
        simp only [albumOfRow]
        simp only [beq_iff_eq] at hguard
        simp_all

/-- Shape of a successful Es single-album hydration. -/
theorem es_fetch_album_shape {db : Db} {id : String} {al : Album}
    (h : Es.fetch_album_details db id = .ok (some al)) :
    al.id = id ∧ al.artist ≠ "" := by
  unfold Es.fetch_album_details at h
  split at h
  · simp at h
  · split at h
    · simp at h
    · rename_i r hfind
      split at h
      · simp at h
      · rename_i hguard
        simp at h
        have hid : r.id = id := by
          have := List.find?_some hfind
          simpa using this
        subst h
        refine ⟨by rw [← hid]; rfl, ?_⟩
        simp only [albumOfRow]
        simp only [beq_iff_eq] at hguard
        simp_all

/-- Any item produced by the per-hit loop carries the hit's document id,
and satisfies the consistency guard of its kind. -/
theorem processHit_spec {db : Db}
    {aF alF iF uF : Option String} {d : IndexDoc} {it : SearchResultItem}
    (h : (Es.processHit db aF alF iF uF d).1 = some it) :
    itemId it = d.doc_id ∧
    (∀ s, it = .song s → s.artist ≠ "" ∧ s.album ≠ "") ∧
    (∀ al, it = .album al → al.artist ≠ "") := by
  unfold Es.processHit at h
  split at h
  · simp at h
  · split at h
    · -- song branch
      rcases hf : Es.fetch_song_details db d.doc_id with e | o
      · rw [hf] at h; simp at h
      · rw [hf] at h
        cases o with
        | none => simp at h
        | some song =>
          simp at h
          split at h
          · simp at h
            obtain ⟨hs1, hs2, hs3⟩ := es_fetch_song_shape hf
            subst h
            refine ⟨by simpa [itemId] using hs1, ?_, ?_⟩
            · intro s hs
              cases hs
              exact ⟨hs2, hs3⟩
            · intro al hal
              cases hal
          · simp at h
    · split at h
      · -- artist branch
        rcases hf : Es.fetch_artist_details db d.doc_id with e | o
        · rw [hf] at h; simp at h
        · rw [hf] at h
          cases o with
          | none => simp at h
          | some artist =>
            simp at h
            split at h
            · simp at h
              have hs1 := es_fetch_artist_shape hf
              subst h
              refine ⟨by simpa [itemId] using hs1, ?_, ?_⟩
              · intro s hs
                cases hs
              · intro al hal
                cases hal
            · simp at h
      · split at h
        · -- album branch
          rcases hf : Es.fetch_album_details db d.doc_id with e | o
          · rw [hf] at h; simp at h
          · rw [hf] at h
            cases o with
            | none => simp at h
            | some album =>
              simp at h
              split at h
              · simp at h
                obtain ⟨hs1, hs2⟩ := es_fetch_album_shape hf
                subst h
                refine ⟨by simpa [itemId] using hs1, ?_, ?_⟩
                · intro s hs
                  cases hs
                · intro al hal
                  cases hal
                  exact hs2
              · simp at h
        · simp at h

/-- When an artist filter is supplied, every item the per-hit loop
produces passed its case-insensitive substring test. -/
theorem processHit_artist_filter {db : Db} {a : String}
    {alF iF uF : Option String} {d : IndexDoc} {it : SearchResultItem}
    (h : (Es.processHit db (some a) alF iF uF d).1 = some it) :
    (∀ s, it = .song s → containsSub (lowercase s.artist) (lowercase a) = true) ∧
    (∀ ar, it = .artist ar → containsSub (lowercase ar.name) (lowercase a) = true) ∧
    (∀ al, it = .album al → containsSub (lowercase al.artist) (lowercase a) = true) := by
  unfold Es.processHit at h
  split at h
  · simp at h
  · split at h
    · rcases hf : Es.fetch_song_details db d.doc_id with e | o
      · rw [hf] at h; simp at h
      · rw [hf] at h
        cases o with
        | none => simp at h
        | some song =>
          simp at h
          split at h
          · rename_i hcond
            simp at h
            subst h
            refine ⟨?_, ?_, ?_⟩
            · intro s hs
              cases hs
              exact hcond.1.1
            · intro ar har; cases har
            · intro al hal; cases hal
          · simp at h
    · split at h
      · rcases hf : Es.fetch_artist_details db d.doc_id with e | o
        · rw [hf] at h; simp at h
        · rw [hf] at h
          cases o with
          | none => simp at h
          | some artist =>
            simp at h
            split at h
            · rename_i hcond
              simp at h
              subst h
              refine ⟨?_, ?_, ?_⟩
              · intro s hs; cases hs
              · intro ar har
                cases har
                exact hcond
              · intro al hal; cases hal
            · simp at h
      · split at h
        · rcases hf : Es.fetch_album_details db d.doc_id with e | o
          · rw [hf] at h; simp at h
          · rw [hf] at h
            cases o with
            | none => simp at h
            | some album =>
              simp at h
              split at h
              · rename_i hcond
                simp at h
                subst h
                refine ⟨?_, ?_, ?_⟩
                · intro s hs; cases hs
                · intro ar har; cases har
                · intro al hal
                  cases hal
                  exact hcond.1
              · simp at h
        · simp at h

/-- Full characterization of the per-hit loop for songs when only the
artist filter is supplied: a song item is produced exactly when the hit
is a song hit with a usable id, single-row hydration (including the
consistency guard) succeeded, and the lowercased filter text is a
substring of the lowercased aggregated artist string. -/
theorem processHit_song_iff {db : Db} {a : String} {d : IndexDoc} {s : Song} :
    (Es.processHit db (some a) none none none d).1 = some (.song s) ↔
      (d.doc_id ≠ "" ∧ d.item_type = "song" ∧
       Es.fetch_song_details db d.doc_id = .ok (some s) ∧
       containsSub (lowercase s.artist) (lowercase a) = true) := by
  constructor
  · intro h
    unfold Es.processHit at h
    split at h
    · simp at h
    · rename_i h0
      simp only [Bool.or_eq_true, beq_iff_eq, not_or] at h0
      split at h
      · rename_i hsong
        rw [beq_iff_eq] at hsong
        rcases hf : Es.fetch_song_details db d.doc_id with e | o
        · rw [hf] at h; simp at h
        · rw [hf] at h
          cases o with
          | none => simp at h
          | some song =>
            simp at h
            split at h
            · rename_i hcond
              simp at h
              cases h
              exact ⟨h0.1, hsong, rfl, hcond.1⟩
            · simp at h
      · split at h
        · rcases hf : Es.fetch_artist_details db d.doc_id with e | o
          · rw [hf] at h; simp at h
          · rw [hf] at h
            cases o with
            | none => simp at h
            | some artist =>
              simp at h
              split at h <;> simp at h
        · split at h
          · rcases hf : Es.fetch_album_details db d.doc_id with e | o
            · rw [hf] at h; simp at h
            · rw [hf] at h
              cases o with
              | none => simp at h
              | some album =>
                simp at h
                split at h <;> simp at h
          · simp at h
  · rintro ⟨hid, htype, hfetch, hcond⟩
    unfold Es.processHit
    rw [htype]
    simp only [hid, beq_iff_eq, Bool.or_eq_true, if_false]
    simp [hfetch, hcond, isrcKeep]

/-- Decomposition of a successful Manticore search in the song branch
(explicit `type=song` or the absent-type default). -/
theorem mant_search_song_run {matchFn : String → IndexDoc → Bool}
    {idx : List IndexDoc} {db : Db} {query : String}
    {item_type aF alF iF uF : Option String} {limit offset : Nat}
    {res : AdvancedSearchResult} {q : Nat}
    (ht : Manticore.queryType item_type = "song")
    (h : Manticore.search_advanced matchFn idx db query item_type aF alF iF uF
      limit offset = .ok (res, q)) :
    ∃ m, Manticore.fetch_songs_batch db
        (Manticore.pageIds matchFn idx (Manticore.matchExpr query aF alF) "song" limit offset) = .ok (m, q) ∧
      res.items = (Manticore.pageIds matchFn idx (Manticore.matchExpr query aF alF) "song" limit offset).filterMap
        (fun id => match List.lookup id m with
          | some s => if isrcKeep iF s then some (.song s) else none
          | none => none) ∧
      res.total = Manticore.totalCount matchFn idx (Manticore.matchExpr query aF alF) "song" := by
  unfold Manticore.search_advanced at h
  rw [ht] at h
  simp only [if_pos rfl] at h
  cases hfb : Manticore.fetch_songs_batch db
      (Manticore.pageIds matchFn idx (Manticore.matchExpr query aF alF) "song" limit offset) with
  | error e => rw [hfb] at h; simp [Bind.bind, Except.bind] at h
  | ok p =>
    rw [hfb] at h
    obtain ⟨m, q'⟩ := p
    simp [Bind.bind, Except.bind, pure, Except.pure] at h
    obtain ⟨hi, hq⟩ := h
    subst hq
    exact ⟨m, rfl, by rw [← hi], by rw [← hi]⟩

/-- Decomposition of a successful Manticore search in the artist branch. -/
theorem mant_search_artist_run {matchFn : String → IndexDoc → Bool}
    {idx : List IndexDoc} {db : Db} {query : String}
    {item_type aF alF iF uF : Option String} {limit offset : Nat}
    {res : AdvancedSearchResult} {q : Nat}
    (ht : Manticore.queryType item_type = "artist")
    (h : Manticore.search_advanced matchFn idx db query item_type aF alF iF uF
      limit offset = .ok (res, q)) :
    ∃ m, Manticore.fetch_artists_batch db
        (Manticore.pageIds matchFn idx (Manticore.matchExpr query aF alF) "artist" limit offset) = .ok (m, q) ∧
      res.items = (Manticore.pageIds matchFn idx (Manticore.matchExpr query aF alF) "artist" limit offset).filterMap
        (fun id => match List.lookup id m with
          | some a => some (.artist a)
          | none => none) ∧
      res.total = Manticore.totalCount matchFn idx (Manticore.matchExpr query aF alF) "artist" := by
  unfold Manticore.search_advanced at h
  rw [ht] at h
  simp only [if_pos rfl, if_neg (by simp : ¬("artist" = "song"))] at h
  cases hfb : Manticore.fetch_artists_batch db
      (Manticore.pageIds matchFn idx (Manticore.matchExpr query aF alF) "artist" limit offset) with
  | error e => rw [hfb] at h; simp [Bind.bind, Except.bind] at h
  | ok p =>
    rw [hfb] at h
    obtain ⟨m, q'⟩ := p
    simp [Bind.bind, Except.bind, pure, Except.pure] at h
    obtain ⟨hi, hq⟩ := h
    subst hq
    exact ⟨m, rfl, by rw [← hi], by rw [← hi]⟩

/-- Decomposition of a successful Manticore search in the album branch. -/
theorem mant_search_album_run {matchFn : String → IndexDoc → Bool}
    {idx : List IndexDoc} {db : Db} {query : String}
    {item_type aF alF iF uF : Option String} {limit offset : Nat}
    {res : AdvancedSearchResult} {q : Nat}
    (ht : Manticore.queryType item_type = "album")
    (h : Manticore.search_advanced matchFn idx db query item_type aF alF iF uF
      limit offset = .ok (res, q)) :
    ∃ m, Manticore.fetch_albums_batch db
        (Manticore.pageIds matchFn idx (Manticore.matchExpr query aF alF) "album" limit offset) = .ok (m, q) ∧
      res.items = (Manticore.pageIds matchFn idx (Manticore.matchExpr query aF alF) "album" limit offset).filterMap
        (fun id => match List.lookup id m with
          | some al => if upcKeep uF al then some (.album al) else none
          | none => none) ∧
      res.total = Manticore.totalCount matchFn idx (Manticore.matchExpr query aF alF) "album" := by
  unfold Manticore.search_advanced at h
  rw [ht] at h
  simp only [if_pos rfl, if_neg (by simp : ¬("album" = "song")),
    if_neg (by simp : ¬("album" = "artist"))] at h
  cases hfb : Manticore.fetch_albums_batch db
      (Manticore.pageIds matchFn idx (Manticore.matchExpr query aF alF) "album" limit offset) with
  | error e => rw [hfb] at h; simp [Bind.bind, Except.bind] at h
  | ok p =>
    rw [hfb] at h
    obtain ⟨m, q'⟩ := p
    simp [Bind.bind, Except.bind, pure, Except.pure] at h
    obtain ⟨hi, hq⟩ := h
    subst hq
    exact ⟨m, rfl, by rw [← hi], by rw [← hi]⟩

/-- A Manticore search with an unrecognized explicit type hydrates
nothing: empty items, zero relational queries, total still computed. -/
theorem mant_search_unknown_run {matchFn : String → IndexDoc → Bool}
    {idx : List IndexDoc} {db : Db} {query : String}
    {item_type aF alF iF uF : Option String} {limit offset : Nat}
    (h1 : Manticore.queryType item_type ≠ "song")
    (h2 : Manticore.queryType item_type ≠ "artist")
    (h3 : Manticore.queryType item_type ≠ "album") :
    Manticore.search_advanced matchFn idx db query item_type aF alF iF uF
      limit offset =
      .ok ({ items := [],
             total := Manticore.totalCount matchFn idx
               (Manticore.matchExpr query aF alF) (Manticore.queryType item_type) }, 0) := by
  unfold Manticore.search_advanced
  simp only [if_neg h1, if_neg h2, if_neg h3]
  rfl

/-- A batched song fetch that actually issues its query against an
unreachable store errors. -/
theorem fetch_songs_batch_fail {db : Db} {ids : List String}
    (hne : ids ≠ []) (hf : db.failing = true) :
    Manticore.fetch_songs_batch db ids = .error () := by
  unfold Manticore.fetch_songs_batch
  simp [List.isEmpty_iff, hne, hf]

/-- Same for artists. -/
theorem fetch_artists_batch_fail {db : Db} {ids : List String}
    (hne : ids ≠ []) (hf : db.failing = true) :
    Manticore.fetch_artists_batch db ids = .error () := by
  unfold Manticore.fetch_artists_batch
  simp [List.isEmpty_iff, hne, hf]

/-- Same for albums. -/
theorem fetch_albums_batch_fail {db : Db} {ids : List String}
    (hne : ids ≠ []) (hf : db.failing = true) :
    Manticore.fetch_albums_batch db ids = .error () := by
  unfold Manticore.fetch_albums_batch
  simp [List.isEmpty_iff, hne, hf]

/-- Against a reachable store a batched fetch always succeeds. -/
theorem fetch_songs_batch_ok {db : Db} (ids : List String)
    (hf : db.failing = false) :
    ∃ p, Manticore.fetch_songs_batch db ids = .ok p := by
  unfold Manticore.fetch_songs_batch
  split
  · exact ⟨_, rfl⟩
  · rw [hf]
    exact ⟨_, rfl⟩

/-- Same for artists. -/
theorem fetch_artists_batch_ok {db : Db} (ids : List String)
    (hf : db.failing = false) :
    ∃ p, Manticore.fetch_artists_batch db ids = .ok p := by
  unfold Manticore.fetch_artists_batch
  split
  · exact ⟨_, rfl⟩
  · rw [hf]
    exact ⟨_, rfl⟩

/-- Same for albums. -/
theorem fetch_albums_batch_ok {db : Db} (ids : List String)
    (hf : db.failing = false) :
    ∃ p, Manticore.fetch_albums_batch db ids = .ok p := by
  unfold Manticore.fetch_albums_batch
  split
  · exact ⟨_, rfl⟩
  · rw [hf]
    exact ⟨_, rfl⟩

set_option maxHeartbeats 1000000 in
/-- The six chained replacements act as one character-wise map. -/
theorem clean_eq_map (s : String) :
    Manticore.clean s = String.mk (s.data.map sanitizedChar) := by
  unfold Manticore.clean Manticore.replaceChar
  congr 1
  simp only [List.map_map]
  apply List.map_congr_left
  intro c _
  simp only [Function.comp_apply]
  unfold sanitizedChar
  by_cases h1 : c = '\''
  · subst h1; decide
  · by_cases h2 : c = '"'
    · subst h2; decide
    · by_cases h3 : c = '\\'
      · subst h3; decide
      · by_cases h4 : c = '@'
        · subst h4; decide
        · by_cases h5 : c = '!'
          · subst h5; decide
          · by_cases h6 : c = '^'
            · subst h6; decide
            · simp [h1, h2, h3, h4, h5, h6]

/-- The sanitizing map never outputs a special character. -/
theorem sanitizedChar_avoids (c : Char) :
    sanitizedChar c ≠ '\'' ∧ sanitizedChar c ≠ '"' ∧ sanitizedChar c ≠ '\\' ∧
    sanitizedChar c ≠ '@' ∧ sanitizedChar c ≠ '!' ∧ sanitizedChar c ≠ '^' := by
  unfold sanitizedChar
  split
  · refine ⟨?_, ?_, ?_, ?_, ?_, ?_⟩ <;> decide
  · rename_i hb
    simp only [Bool.or_eq_true, decide_eq_true_eq, not_or] at hb
    exact ⟨hb.1.1.1.1.1, hb.1.1.1.1.2, hb.1.1.1.2, hb.1.1.2, hb.1.2, hb.2⟩

/-- The ranked-id page is bounded by the limit and by the match count. -/
theorem pageIds_length (matchFn : String → IndexDoc → Bool)
    (idx : List IndexDoc) (expr t : String) (limit offset : Nat) :
    (Manticore.pageIds matchFn idx expr t limit offset).length ≤ limit ∧
    (Manticore.pageIds matchFn idx expr t limit offset).length ≤
      Manticore.totalCount matchFn idx expr t := by
  unfold Manticore.pageIds Manticore.totalCount
  simp only [List.length_map, List.length_take, List.length_drop]
  omega

/-- The hits page is bounded by the size and by the match count. -/
theorem hitsPage_length (matchFn : String → IndexDoc → Bool)
    (idx : List IndexDoc) (body : Es.SearchBody) :
    (Es.hitsPage matchFn idx body).length ≤ body.size ∧
    (Es.hitsPage matchFn idx body).length ≤ Es.totalCount matchFn idx body := by
  unfold Es.hitsPage Es.totalCount
  simp only [List.length_take, List.length_drop]
  omega

/-- Projection of the Es search result: items are the per-hit loop over
the hits page. -/
theorem es_search_items (matchFn : String → IndexDoc → Bool)
    (idx : List IndexDoc) (db : Db) (query : String)
    (item_type aF alF iF uF : Option String) (limit offset : Nat) :
    (Es.search_advanced matchFn idx db query item_type aF alF iF uF
      limit offset).1.items =
      (Es.hitsPage matchFn idx (Es.searchBody query item_type limit offset)).filterMap
        (fun d => (Es.processHit db aF alF iF uF d).1) := rfl

/-- Projection of the Es search result: `total` is the match count. -/
theorem es_search_total (matchFn : String → IndexDoc → Bool)
    (idx : List IndexDoc) (db : Db) (query : String)
    (item_type aF alF iF uF : Option String) (limit offset : Nat) :
    (Es.search_advanced matchFn idx db query item_type aF alF iF uF
      limit offset).1.total =
      Es.totalCount matchFn idx (Es.searchBody query item_type limit offset) := rfl

/-- Projection of the Es search result: one relational query per
processed hit. -/
theorem es_search_queries (matchFn : String → IndexDoc → Bool)
    (idx : List IndexDoc) (db : Db) (query : String)
    (item_type aF alF iF uF : Option String) (limit offset : Nat) :
    (Es.search_advanced matchFn idx db query item_type aF alF iF uF
      limit offset).2 =
      ((Es.hitsPage matchFn idx (Es.searchBody query item_type limit offset)).map
        (fun d => (Es.processHit db aF alF iF uF d).2)).sum := rfl

/-- Query count of a successful batched song fetch: at most one, exactly
one when ids were requested. -/
theorem fetch_songs_batch_queries {db : Db} {ids : List String}
    {m : List (String × Song)} {q : Nat}
    (h : Manticore.fetch_songs_batch db ids = .ok (m, q)) :
    q ≤ 1 ∧ (ids ≠ [] → q = 1) := by
  unfold Manticore.fetch_songs_batch at h
  split at h
  · rename_i he
    simp at h
    refine ⟨by omega, fun hne => absurd (List.isEmpty_iff.mp he) hne⟩
  · split at h
    · simp at h
    · simp at h
      omega

/-- Same for artists. -/
theorem fetch_artists_batch_queries {db : Db} {ids : List String}
    {m : List (String × Artist)} {q : Nat}
    (h : Manticore.fetch_artists_batch db ids = .ok (m, q)) :
    q ≤ 1 ∧ (ids ≠ [] → q = 1) := by
  unfold Manticore.fetch_artists_batch at h
  split at h
  · rename_i he
    simp at h
    refine ⟨by omega, fun hne => absurd (List.isEmpty_iff.mp he) hne⟩
  · split at h
    · simp at h
    · simp at h
      omega

/-- Same for albums. -/
theorem fetch_albums_batch_queries {db : Db} {ids : List String}
    {m : List (String × Album)} {q : Nat}
    (h : Manticore.fetch_albums_batch db ids = .ok (m, q)) :
    q ≤ 1 ∧ (ids ≠ [] → q = 1) := by
  unfold Manticore.fetch_albums_batch at h
  split at h
  · rename_i he
    simp at h
    refine ⟨by omega, fun hne => absurd (List.isEmpty_iff.mp he) hne⟩
  · split at h
    · simp at h
    · simp at h
      omega

/-- C1 (amended): in the Manticore variant every search call issues at
most one relational query — exactly one batched id-set query for the
call's single entity type whenever the ranked-id page is non-empty and
the type is recognized — never one query per individual id. (The
Elasticsearch variant instead issues one relational query per hydrated
hit, refuting the claim as stated; see the counterexample.) -/
theorem C1_manticore_one_batched_query
    (matchFn : String → IndexDoc → Bool) (idx : List IndexDoc) (db : Db)
    (query : String) (item_type aF alF iF uF : Option String)
    (limit offset : Nat) (res : AdvancedSearchResult) (q : Nat)
    (h : Manticore.search_advanced matchFn idx db query item_type aF alF iF uF
      limit offset = .ok (res, q)) :
    q ≤ 1 ∧
    ((Manticore.queryType item_type = "song" ∨
      Manticore.queryType item_type = "artist" ∨
      Manticore.queryType item_type = "album") →
      Manticore.pageIds matchFn idx (Manticore.matchExpr query aF alF)
        (Manticore.queryType item_type) limit offset ≠ [] →
      q = 1) := by
  by_cases h1 : Manticore.queryType item_type = "song"
  · obtain ⟨m, hfb, _, _⟩ := mant_search_song_run h1 h
    have hq := fetch_songs_batch_queries hfb
    rw [h1]
    exact ⟨hq.1, fun _ hne => hq.2 hne⟩
  · by_cases h2 : Manticore.queryType item_type = "artist"
    · obtain ⟨m, hfb, _, _⟩ := mant_search_artist_run h2 h
      have hq := fetch_artists_batch_queries hfb
      rw [h2]
      exact ⟨hq.1, fun _ hne => hq.2 hne⟩
    · by_cases h3 : Manticore.queryType item_type = "album"
      · obtain ⟨m, hfb, _, _⟩ := mant_search_album_run h3 h
        have hq := fetch_albums_batch_queries hfb
        rw [h3]
        refine ⟨hq.1, fun _ hne => hq.2 ?_⟩
        exact hne
      · rw [mant_search_unknown_run h1 h2 h3] at h
        simp at h
        refine ⟨by omega, fun hd _ => ?_⟩
        rcases hd with hd | hd | hd <;> contradiction

/-- C1 witness: a concrete one-page Manticore call issues exactly one
batched relational query. -/
theorem C1_witness :
    (Manticore.queryType none = "song" ∨ Manticore.queryType none = "artist" ∨
      Manticore.queryType none = "album") ∧
    Manticore.pageIds matchAll idx1 (Manticore.matchExpr "yesterday" none none)
      (Manticore.queryType none) 10 0 ≠ [] ∧
    (1 : Nat) ≤ 1 ∧ (1 : Nat) = 1 := by
  have happ := C1_manticore_one_batched_query matchAll idx1 db1 "yesterday"
    none none none none none 10 0 { items := [.song beatlesSong], total := 1 } 1 (by rfl)
  exact ⟨by decide, by decide, happ.1, happ.2 (by decide) (by decide)⟩

/-- C1 counterexample: an Elasticsearch-variant search whose page holds
two ranked song ids issues two relational queries — one per individual
id — not the single batched query per entity type the claim requires. -/
theorem C1_counterexample :
    (Es.search_advanced matchAll [songDoc, songDoc2] db2 "yesterday" (some "song")
      none none none none 10 0).2 = 2 ∧
    (Es.search_advanced matchAll [songDoc, songDoc2] db2 "yesterday" (some "song")
      none none none none 10 0).1.items.length = 2 ∧
    (2 : Nat) ≠ 1 := by
  refine ⟨by rfl, by rfl, by decide⟩

/-- C2 (amended): in the Manticore variant an absent item-type argument
constrains the index query to `item_type = song` and every returned item
is a Song. (In the Elasticsearch variant an absent item-type adds no
type filter clause, and artist or album documents can appear in the
result items; see the counterexample.) -/
theorem C2_manticore_song_default
    (matchFn : String → IndexDoc → Bool) (idx : List IndexDoc) (db : Db)
    (query : String) (aF alF iF uF : Option String)
    (limit offset : Nat) (res : AdvancedSearchResult) (q : Nat)
    (h : Manticore.search_advanced matchFn idx db query none aF alF iF uF
      limit offset = .ok (res, q)) :
    Manticore.queryType none = "song" ∧
    ∀ it ∈ res.items, ∃ s, it = SearchResultItem.song s := by
  refine ⟨rfl, ?_⟩
  obtain ⟨m, hfb, hi, _⟩ :=
    mant_search_song_run (show Manticore.queryType none = "song" from rfl) h
  intro it hmem
  rw [hi] at hmem
  obtain ⟨id, hid, hf⟩ := List.mem_filterMap.mp hmem
  cases hl : List.lookup id m with
  | none => rw [hl] at hf; simp at hf
  | some s =>
    rw [hl] at hf
    simp only at hf
    split at hf
    · simp at hf
      exact ⟨s, hf.symm⟩
    · simp at hf

/-- C2 witness: a concrete absent-item-type Manticore call whose single
item is a Song. -/
theorem C2_witness :
    ∃ s, SearchResultItem.song beatlesSong = SearchResultItem.song s := by
  have happ := C2_manticore_song_default matchAll idx1 db1 "yesterday"
    none none none none 10 0 { items := [.song beatlesSong], total := 1 } 1 (by rfl)
  exact happ.2 (.song beatlesSong) (by decide)

/-- C2 counterexample: an Elasticsearch-variant search with the
item-type argument absent returns an artist document among its items —
the query is not constrained to songs. -/
theorem C2_counterexample :
    (Es.search_advanced matchAll idx1 db1 "beatles" none none none none none
      10 0).1.items =
      [.song beatlesSong, .artist (artistOfRow beatlesArtistRow)] := by rfl

/-- C3 (amended): in the Manticore variant, when the relational store
fails during hydration (a batched query is actually issued on a
non-empty ranked-id page), the whole search call returns a backend
error. (The Elasticsearch variant swallows per-id hydration failures
and silently omits the affected items; see the counterexample.) -/
theorem C3_manticore_propagates
    (matchFn : String → IndexDoc → Bool) (idx : List IndexDoc) (db : Db)
    (query : String) (item_type aF alF iF uF : Option String)
    (limit offset : Nat)
    (hfail : db.failing = true)
    (hne : Manticore.pageIds matchFn idx (Manticore.matchExpr query aF alF)
      (Manticore.queryType item_type) limit offset ≠ [])
    (htype : Manticore.queryType item_type = "song" ∨
      Manticore.queryType item_type = "artist" ∨
      Manticore.queryType item_type = "album") :
    Manticore.search_advanced matchFn idx db query item_type aF alF iF uF
      limit offset = .error () := by
  unfold Manticore.search_advanced
  rcases htype with ht | ht | ht <;> rw [ht] at hne ⊢
  · simp only [if_pos rfl]
    rw [fetch_songs_batch_fail hne hfail]
    rfl
  · simp only [if_pos rfl, if_neg (by simp : ¬("artist" = "song"))]
    rw [fetch_artists_batch_fail hne hfail]
    rfl
  · simp only [if_pos rfl, if_neg (by simp : ¬("album" = "song")),
      if_neg (by simp : ¬("album" = "artist"))]
    rw [fetch_albums_batch_fail hne hfail]
    rfl

/-- C3 witness: a concrete Manticore search against an unreachable store
returns a backend error. -/
theorem C3_witness :
    db1Failing.failing = true ∧
    Manticore.pageIds matchAll idx1 (Manticore.matchExpr "yesterday" none none)
      (Manticore.queryType none) 10 0 ≠ [] ∧
    Manticore.search_advanced matchAll idx1 db1Failing "yesterday" none none
      none none none 10 0 = .error () := by
  refine ⟨by rfl, by decide, ?_⟩
  exact C3_manticore_propagates matchAll idx1 db1Failing "yesterday" none none
    none none none 10 0 (by rfl) (by decide) (by decide)

/-- C3 counterexample: the same Elasticsearch-variant call succeeds with
the item present when the store is healthy, and still returns a
non-error result — with the item silently omitted — when every
relational query fails. The claim requires a backend error instead. -/
theorem C3_counterexample :
    Es.search_advanced matchAll idx1 db1 "beatles" (some "song") none none
      none none 10 0 = ({ items := [.song beatlesSong], total := 1 }, 1) ∧
    Es.search_advanced matchAll idx1 db1Failing "beatles" (some "song") none
      none none none 10 0 = ({ items := [], total := 1 }, 1) := by
  exact ⟨rfl, rfl⟩

/-- C4 (amended): in the Manticore variant the query builder's `clean`
step replaces every occurrence of single quote, double quote, backslash,
`@`, `!` and `^` in an input text with a space — acting on the query and
on each filter text — no sanitized text retains one of those characters,
and no input is ever rejected for containing them (a search against a
reachable store always returns a result). (The Elasticsearch variant
performs no such replacement: the raw text is passed through into the
match clause, though it is not rejected either; see the
counterexample.) -/
theorem C4_manticore_sanitizes :
    (∀ s : String, Manticore.clean s = String.mk (s.data.map sanitizedChar)) ∧
    (∀ s : String, ∀ c ∈ (Manticore.clean s).data,
      c ≠ '\'' ∧ c ≠ '"' ∧ c ≠ '\\' ∧ c ≠ '@' ∧ c ≠ '!' ∧ c ≠ '^') ∧
    (∀ (matchFn : String → IndexDoc → Bool) (idx : List IndexDoc) (db : Db)
      (query : String) (item_type aF alF iF uF : Option String)
      (limit offset : Nat), db.failing = false →
      ∃ r, Manticore.search_advanced matchFn idx db query item_type aF alF iF uF
        limit offset = .ok r) := by
  refine ⟨clean_eq_map, ?_, ?_⟩
  · intro s c hc
    rw [clean_eq_map s] at hc
    obtain ⟨x, _, hx⟩ := List.mem_map.mp hc
    rw [← hx]
    exact sanitizedChar_avoids x
  · intro matchFn idx db query item_type aF alF iF uF limit offset hok
    unfold Manticore.search_advanced
    by_cases h1 : Manticore.queryType item_type = "song"
    · rw [h1]
      simp only [if_pos rfl]
      obtain ⟨p, hp⟩ := fetch_songs_batch_ok
        (Manticore.pageIds matchFn idx (Manticore.matchExpr query aF alF) "song"
          limit offset) hok
      rw [hp]
      exact ⟨_, rfl⟩
    · by_cases h2 : Manticore.queryType item_type = "artist"
      · rw [h2]
        simp only [if_pos rfl, if_neg (by simp : ¬("artist" = "song"))]
        obtain ⟨p, hp⟩ := fetch_artists_batch_ok
          (Manticore.pageIds matchFn idx (Manticore.matchExpr query aF alF) "artist"
            limit offset) hok
        rw [hp]
        exact ⟨_, rfl⟩
      · by_cases h3 : Manticore.queryType item_type = "album"
        · rw [h3]
          simp only [if_pos rfl, if_neg (by simp : ¬("album" = "song")),
            if_neg (by simp : ¬("album" = "artist"))]
          obtain ⟨p, hp⟩ := fetch_albums_batch_ok
            (Manticore.pageIds matchFn idx (Manticore.matchExpr query aF alF) "album"
              limit offset) hok
          rw [hp]
          exact ⟨_, rfl⟩
        · simp only [if_neg h1, if_neg h2, if_neg h3]
          exact ⟨_, rfl⟩

/-- C4 witness: the sanitizer maps a concrete text containing all five
special characters to spaces, and a concrete call on such a query
succeeds. -/
theorem C4_witness :
    Manticore.clean "a'b\"c\\d@e!f^g" =
      String.mk ("a'b\"c\\d@e!f^g".data.map sanitizedChar) ∧
    db1.failing = false ∧
    (∃ r, Manticore.search_advanced matchAll idx1 db1 "a'b\"c\\d@e!f^g" none
      none none none none 10 0 = .ok r) := by
  refine ⟨C4_manticore_sanitizes.1 "a'b\"c\\d@e!f^g", rfl, ?_⟩
  exact C4_manticore_sanitizes.2.2 matchAll idx1 db1 "a'b\"c\\d@e!f^g" none
    none none none none 10 0 rfl

/-- C4 counterexample: the Elasticsearch variant builds its search body
with the raw query text — the `@` (and any other special character)
survives into the match expression instead of being replaced by a
space. -/
theorem C4_counterexample :
    (Es.searchBody "abba@!^" none 10 0).query = "abba@!^" ∧
    '@' ∈ (Es.searchBody "abba@!^" none 10 0).query.data := by
  exact ⟨rfl, by decide⟩

/-- C5 (amended): in the Elasticsearch variant a supplied artist filter
is applied after hydration as a case-insensitive substring test — song
items appear iff their hit survived hydration and the guard and the
lowercased filter text is a substring of the lowercased aggregated
artist string (name for artist entities, artist for albums), including
non-prefix substrings. (In the Manticore variant the artist filter is
instead compiled into the index match expression as an `@artist_name`
clause; no post-hydration substring test exists, and a hydrated song can
appear although the filter text is not a substring of its artist string
— e.g. when the index's stored artist text diverges from the relational
aggregate; see the counterexample.) -/
theorem C5_es_artist_postfilter
    (matchFn : String → IndexDoc → Bool) (idx : List IndexDoc) (db : Db)
    (query : String) (item_type : Option String) (a : String)
    (limit offset : Nat) :
    (∀ s : Song,
      SearchResultItem.song s ∈
        (Es.search_advanced matchFn idx db query item_type (some a) none none
          none limit offset).1.items ↔
        ((∃ d ∈ Es.hitsPage matchFn idx (Es.searchBody query item_type limit offset),
            d.doc_id ≠ "" ∧ d.item_type = "song" ∧
            Es.fetch_song_details db d.doc_id = .ok (some s)) ∧
         containsSub (lowercase s.artist) (lowercase a) = true)) ∧
    (∀ ar : Artist,
      SearchResultItem.artist ar ∈
        (Es.search_advanced matchFn idx db query item_type (some a) none none
          none limit offset).1.items →
        containsSub (lowercase ar.name) (lowercase a) = true) ∧
    (∀ al : Album,
      SearchResultItem.album al ∈
        (Es.search_advanced matchFn idx db query item_type (some a) none none
          none limit offset).1.items →
        containsSub (lowercase al.artist) (lowercase a) = true) := by
  refine ⟨?_, ?_, ?_⟩
  · intro s
    rw [es_search_items]
    constructor
    · intro hmem
      obtain ⟨d, hd, hph⟩ := List.mem_filterMap.mp hmem
      obtain ⟨h1, h2, h3, h4⟩ := processHit_song_iff.mp hph
      exact ⟨⟨d, hd, h1, h2, h3⟩, h4⟩
    · rintro ⟨⟨d, hd, h1, h2, h3⟩, h4⟩
      exact List.mem_filterMap.mpr ⟨d, hd, processHit_song_iff.mpr ⟨h1, h2, h3, h4⟩⟩
  · intro ar hmem
    rw [es_search_items] at hmem
    obtain ⟨d, hd, hph⟩ := List.mem_filterMap.mp hmem
    exact (processHit_artist_filter hph).2.1 ar rfl
  · intro al hmem
    rw [es_search_items] at hmem
    obtain ⟨d, hd, hph⟩ := List.mem_filterMap.mp hmem
    exact (processHit_artist_filter hph).2.2 al rfl

/-- C5 witness: the spec's scenario — filter text `beat` matches the
hydrated artist string `The Beatles` case-insensitively as a non-prefix
substring, so the song appears in the result. -/
theorem C5_witness :
    SearchResultItem.song beatlesSong ∈
      (Es.search_advanced matchAll idx1 db1 "yesterday" (some "song")
        (some "beat") none none none 10 0).1.items := by
  exact ((C5_es_artist_postfilter matchAll idx1 db1 "yesterday" (some "song")
    "beat" 10 0).1 beatlesSong).mpr
    ⟨⟨songDoc, by decide, by decide, by decide, by rfl⟩, by decide⟩

/-- C5 counterexample: a Manticore-variant search with artist filter
`zzz` still returns the song whose aggregated artist string is
`The Beatles` — no post-hydration substring test is applied (the filter
only biases the index query, here an index state matching the clause). -/
theorem C5_counterexample :
    Manticore.search_advanced matchAll idx1 db1 "yesterday" (some "song")
      (some "zzz") none none none 10 0 =
      .ok ({ items := [.song beatlesSong], total := 1 }, 1) ∧
    containsSub (lowercase beatlesSong.artist) (lowercase "zzz") = false := by
  exact ⟨rfl, by decide⟩

/-- Every item of a successful Manticore search is a guarded entity of
the call's single type. -/
theorem mant_items_member {matchFn : String → IndexDoc → Bool}
    {idx : List IndexDoc} {db : Db} {query : String}
    {item_type aF alF iF uF : Option String} {limit offset : Nat}
    {res : AdvancedSearchResult} {q : Nat}
    (h : Manticore.search_advanced matchFn idx db query item_type aF alF iF uF
      limit offset = .ok (res, q)) :
    ∀ it ∈ res.items,
      (∃ s, it = SearchResultItem.song s ∧ s.artist ≠ "" ∧ s.album ≠ "") ∨
      (∃ a, it = SearchResultItem.artist a) ∨
      (∃ al, it = SearchResultItem.album al ∧ al.artist ≠ "") := by
  intro it hmem
  by_cases h1 : Manticore.queryType item_type = "song"
  · obtain ⟨m, hfb, hi, _⟩ := mant_search_song_run h1 h
    rw [hi] at hmem
    obtain ⟨id, hid, hf⟩ := List.mem_filterMap.mp hmem
    cases hl : List.lookup id m with
    | none => rw [hl] at hf; simp at hf
    | some s =>
      rw [hl] at hf
      simp at hf
      obtain ⟨_, _, ha, hb⟩ := songs_batch_lookup hfb hl
      exact Or.inl ⟨s, hf.2.symm, ha, hb⟩
  · by_cases h2 : Manticore.queryType item_type = "artist"
    · obtain ⟨m, hfb, hi, _⟩ := mant_search_artist_run h2 h
      rw [hi] at hmem
      obtain ⟨id, hid, hf⟩ := List.mem_filterMap.mp hmem
      cases hl : List.lookup id m with
      | none => rw [hl] at hf; simp at hf
      | some a =>
        rw [hl] at hf
        simp at hf
        exact Or.inr (Or.inl ⟨a, hf.symm⟩)
    · by_cases h3 : Manticore.queryType item_type = "album"
      · obtain ⟨m, hfb, hi, _⟩ := mant_search_album_run h3 h
        rw [hi] at hmem
        obtain ⟨id, hid, hf⟩ := List.mem_filterMap.mp hmem
        cases hl : List.lookup id m with
        | none => rw [hl] at hf; simp at hf
        | some al =>
          rw [hl] at hf
          simp at hf
          obtain ⟨_, _, ha⟩ := albums_batch_lookup hfb hl
          exact Or.inr (Or.inr ⟨al, hf.2.symm, ha⟩)
      · rw [mant_search_unknown_run h1 h2 h3] at h
        simp at h
        obtain ⟨hres, _⟩ := h
        rw [← hres] at hmem
        simp at hmem

/-- C6: every Song in a search result or point lookup has non-empty
aggregated artist and album strings, every Album so returned has a
non-empty aggregated artist string (records violating this are dropped
by the guard), and Artist records are never dropped on this ground —
every requested artist row yields a map entry. Holds in both variants. -/
theorem C6_consistency_guard :
    (∀ (matchFn : String → IndexDoc → Bool) (idx : List IndexDoc) (db : Db)
       (query : String) (item_type aF alF iF uF : Option String)
       (limit offset : Nat) (res : AdvancedSearchResult) (q : Nat),
      Manticore.search_advanced matchFn idx db query item_type aF alF iF uF
        limit offset = .ok (res, q) →
      ∀ it ∈ res.items,
        (∀ s, it = SearchResultItem.song s → s.artist ≠ "" ∧ s.album ≠ "") ∧
        (∀ al, it = SearchResultItem.album al → al.artist ≠ "")) ∧
    (∀ (matchFn : String → IndexDoc → Bool) (idx : List IndexDoc) (db : Db)
       (query : String) (item_type aF alF iF uF : Option String)
       (limit offset : Nat),
      ∀ it ∈ (Es.search_advanced matchFn idx db query item_type aF alF iF uF
        limit offset).1.items,
        (∀ s, it = SearchResultItem.song s → s.artist ≠ "" ∧ s.album ≠ "") ∧
        (∀ al, it = SearchResultItem.album al → al.artist ≠ "")) ∧
    (∀ (idx : List IndexDoc) (db : Db) (id : String) (s : Song),
      Manticore.get_song_by_id idx db id = .ok (some s) →
      s.artist ≠ "" ∧ s.album ≠ "") ∧
    (∀ (idx : List IndexDoc) (db : Db) (id : String) (al : Album),
      Manticore.get_album_by_id idx db id = .ok (some al) → al.artist ≠ "") ∧
    (∀ (idx : List IndexDoc) (db : Db) (id : String) (s : Song),
      Es.get_song_by_id idx db id = .ok (some s) →
      s.artist ≠ "" ∧ s.album ≠ "") ∧
    (∀ (idx : List IndexDoc) (db : Db) (id : String) (al : Album),
      Es.get_album_by_id idx db id = .ok (some al) → al.artist ≠ "") ∧
    (∀ (db : Db) (ids : List String) (m : List (String × Artist)) (q : Nat),
      Manticore.fetch_artists_batch db ids = .ok (m, q) →
      ∀ r ∈ db.artists, r.id ∈ ids → ∃ a, List.lookup r.id m = some a) := by
  refine ⟨?_, ?_, ?_, ?_, ?_, ?_, ?_⟩
  · intro matchFn idx db query item_type aF alF iF uF limit offset res q h it hmem
    rcases mant_items_member h it hmem with ⟨s, rfl, ha, hb⟩ | ⟨a, rfl⟩ | ⟨al, rfl, ha⟩
    · exact ⟨(fun s' hs' => by cases hs'; exact ⟨ha, hb⟩), (fun al' hal' => by cases hal')⟩
    · exact ⟨(fun s' hs' => by cases hs'), (fun al' hal' => by cases hal')⟩
    · exact ⟨(fun s' hs' => by cases hs'), (fun al' hal' => by cases hal'; exact ha)⟩
  · intro matchFn idx db query item_type aF alF iF uF limit offset it hmem
    rw [es_search_items] at hmem
    obtain ⟨d, hd, hph⟩ := List.mem_filterMap.mp hmem
    exact ⟨(processHit_spec hph).2.1, (processHit_spec hph).2.2⟩
  · intro idx db id s h
    unfold Manticore.get_song_by_id at h
    split at h
    · simp at h
    · split at h
      · exact (mant_fetch_song_shape h).2
      · simp at h
  · intro idx db id al h
    unfold Manticore.get_album_by_id at h
    split at h
    · simp at h
    · split at h
      · exact (mant_fetch_album_shape h).2
      · simp at h
  · intro idx db id s h
    unfold Es.get_song_by_id at h
    split at h
    · simp at h
    · split at h
      · exact (es_fetch_song_shape h).2
      · simp at h
  · intro idx db id al h
    unfold Es.get_album_by_id at h
    split at h
    · simp at h
    · split at h
      · exact (es_fetch_album_shape h).2
      · simp at h
  · intro db ids m q h r hr hin
    exact artists_batch_never_drops h hr hin

/-- C6 witness: a concrete point lookup returns a song whose aggregated
artist and album strings are non-empty. -/
theorem C6_witness :
    beatlesSong.artist ≠ "" ∧ beatlesSong.album ≠ "" := by
  exact C6_consistency_guard.2.2.1 idx1 db1 "song0000000000s1" beatlesSong (by rfl)

/-- The total of a successful Manticore search is the index count for
the built query expression and type. -/
theorem mant_total_eq {matchFn : String → IndexDoc → Bool}
    {idx : List IndexDoc} {db : Db} {query : String}
    {item_type aF alF iF uF : Option String} {limit offset : Nat}
    {res : AdvancedSearchResult} {q : Nat}
    (h : Manticore.search_advanced matchFn idx db query item_type aF alF iF uF
      limit offset = .ok (res, q)) :
    res.total = Manticore.totalCount matchFn idx
      (Manticore.matchExpr query aF alF) (Manticore.queryType item_type) := by
  by_cases h1 : Manticore.queryType item_type = "song"
  · rw [h1]
    exact (mant_search_song_run h1 h).choose_spec.2.2
  · by_cases h2 : Manticore.queryType item_type = "artist"
    · rw [h2]
      exact (mant_search_artist_run h2 h).choose_spec.2.2
    · by_cases h3 : Manticore.queryType item_type = "album"
      · rw [h3]
        exact (mant_search_album_run h3 h).choose_spec.2.2
      · rw [mant_search_unknown_run h1 h2 h3] at h
        simp at h
        rw [← h.1]

/-- The item ids of a successful Manticore search form a sublist of the
ranked-id page. -/
theorem mant_items_sublist {matchFn : String → IndexDoc → Bool}
    {idx : List IndexDoc} {db : Db} {query : String}
    {item_type aF alF iF uF : Option String} {limit offset : Nat}
    {res : AdvancedSearchResult} {q : Nat}
    (h : Manticore.search_advanced matchFn idx db query item_type aF alF iF uF
      limit offset = .ok (res, q)) :
    List.Sublist (res.items.map itemId)
      (Manticore.pageIds matchFn idx (Manticore.matchExpr query aF alF)
        (Manticore.queryType item_type) limit offset) := by
  by_cases h1 : Manticore.queryType item_type = "song"
  · obtain ⟨m, hfb, hi, _⟩ := mant_search_song_run h1 h
    rw [h1, hi]
    have := filterMap_map_sublist
      (Manticore.pageIds matchFn idx (Manticore.matchExpr query aF alF) "song"
        limit offset)
      (fun id => match List.lookup id m with
        | some s => if isrcKeep iF s then some (SearchResultItem.song s) else none
        | none => none)
      itemId (fun x => x) ?_
    · simpa using this
    · intro id it hf
      cases hl : List.lookup id m with
      | none => simp [hl] at hf
      | some s =>
        simp [hl] at hf
        rw [← hf.2]
        simp [itemId, (songs_batch_lookup hfb hl).1]
  · by_cases h2 : Manticore.queryType item_type = "artist"
    · obtain ⟨m, hfb, hi, _⟩ := mant_search_artist_run h2 h
      rw [h2, hi]
      have := filterMap_map_sublist
        (Manticore.pageIds matchFn idx (Manticore.matchExpr query aF alF) "artist"
          limit offset)
        (fun id => match List.lookup id m with
          | some a => some (SearchResultItem.artist a)
          | none => none)
        itemId (fun x => x) ?_
      · simpa using this
      · intro id it hf
        cases hl : List.lookup id m with
        | none => simp [hl] at hf
        | some a =>
          simp [hl] at hf
          rw [← hf]
          simp [itemId, (artists_batch_lookup hfb hl).1]
    · by_cases h3 : Manticore.queryType item_type = "album"
      · obtain ⟨m, hfb, hi, _⟩ := mant_search_album_run h3 h
        rw [h3, hi]
        have := filterMap_map_sublist
          (Manticore.pageIds matchFn idx (Manticore.matchExpr query aF alF) "album"
            limit offset)
          (fun id => match List.lookup id m with
            | some al => if upcKeep uF al then some (SearchResultItem.album al) else none
            | none => none)
          itemId (fun x => x) ?_
        · simpa using this
        · intro id it hf
          cases hl : List.lookup id m with
          | none => simp [hl] at hf
          | some al =>
            simp [hl] at hf
            rw [← hf.2]
            simp [itemId, (albums_batch_lookup hfb hl).1]
      · rw [mant_search_unknown_run h1 h2 h3] at h
        simp at h
        rw [← h.1]
        simp

/-- The item ids of an Es search form a sublist of the hit page's ids. -/
theorem es_items_sublist (matchFn : String → IndexDoc → Bool)
    (idx : List IndexDoc) (db : Db) (query : String)
    (item_type aF alF iF uF : Option String) (limit offset : Nat) :
    List.Sublist
      ((Es.search_advanced matchFn idx db query item_type aF alF iF uF
        limit offset).1.items.map itemId)
      ((Es.hitsPage matchFn idx (Es.searchBody query item_type limit offset)).map
        (fun d : IndexDoc => d.doc_id)) := by
  rw [es_search_items]
  exact filterMap_map_sublist _ _ itemId (fun d : IndexDoc => d.doc_id)
    (fun d it hf => (processHit_spec hf).1)

/-- C7: in both variants the returned `total` equals the index backend's
count of documents matching the query expression, computed independently
of hydration, the consistency guard and the post-filters; hence `total`
bounds the number of returned items, and runs differing only in the
relational store contents or the post-filter arguments report the same
`total`. -/
theorem C7_total_is_index_count :
    (∀ (matchFn : String → IndexDoc → Bool) (idx : List IndexDoc) (db : Db)
       (query : String) (item_type aF alF iF uF : Option String)
       (limit offset : Nat) (res : AdvancedSearchResult) (q : Nat),
      Manticore.search_advanced matchFn idx db query item_type aF alF iF uF
        limit offset = .ok (res, q) →
      res.total = Manticore.totalCount matchFn idx
        (Manticore.matchExpr query aF alF) (Manticore.queryType item_type) ∧
      res.items.length ≤ res.total) ∧
    (∀ (matchFn : String → IndexDoc → Bool) (idx : List IndexDoc) (db : Db)
       (query : String) (item_type aF alF iF uF : Option String)
       (limit offset : Nat),
      (Es.search_advanced matchFn idx db query item_type aF alF iF uF
        limit offset).1.total =
        Es.totalCount matchFn idx (Es.searchBody query item_type limit offset) ∧
      (Es.search_advanced matchFn idx db query item_type aF alF iF uF
        limit offset).1.items.length ≤
        (Es.search_advanced matchFn idx db query item_type aF alF iF uF
          limit offset).1.total) ∧
    (∀ (matchFn : String → IndexDoc → Bool) (idx : List IndexDoc)
       (query : String) (item_type aF alF : Option String)
       (limit offset : Nat) (db db' : Db) (iF uF iF' uF' : Option String)
       (res res' : AdvancedSearchResult) (q q' : Nat),
      Manticore.search_advanced matchFn idx db query item_type aF alF iF uF
        limit offset = .ok (res, q) →
      Manticore.search_advanced matchFn idx db' query item_type aF alF iF' uF'
        limit offset = .ok (res', q') →
      res.total = res'.total) := by
  refine ⟨?_, ?_, ?_⟩
  · intro matchFn idx db query item_type aF alF iF uF limit offset res q h
    refine ⟨mant_total_eq h, ?_⟩
    have hs := (mant_items_sublist h).length_le
    rw [List.length_map] at hs
    have hp := (pageIds_length matchFn idx (Manticore.matchExpr query aF alF)
      (Manticore.queryType item_type) limit offset).2
    rw [mant_total_eq h]
    omega
  · intro matchFn idx db query item_type aF alF iF uF limit offset
    refine ⟨es_search_total matchFn idx db query item_type aF alF iF uF limit offset, ?_⟩
    have hs := (es_items_sublist matchFn idx db query item_type aF alF iF uF
      limit offset).length_le
    rw [List.length_map, List.length_map] at hs
    have hp := (hitsPage_length matchFn idx
      (Es.searchBody query item_type limit offset)).2
    rw [es_search_total]
    omega
  · intro matchFn idx query item_type aF alF limit offset db db' iF uF iF' uF'
      res res' q q' h h'
    rw [mant_total_eq h, mant_total_eq h']

/-- C7 witness: a concrete Manticore call whose total equals the index
count and bounds the item count. -/
theorem C7_witness :
    ({ items := [SearchResultItem.song beatlesSong], total := 1 } :
      AdvancedSearchResult).total =
      Manticore.totalCount matchAll idx1 (Manticore.matchExpr "yesterday" none none)
        (Manticore.queryType none) ∧
    ({ items := [SearchResultItem.song beatlesSong], total := 1 } :
      AdvancedSearchResult).items.length ≤
      ({ items := [SearchResultItem.song beatlesSong], total := 1 } :
        AdvancedSearchResult).total := by
  exact C7_total_is_index_count.1 matchAll idx1 db1 "yesterday" none none none
    none none 10 0 { items := [SearchResultItem.song beatlesSong], total := 1 } 1 (by rfl)

/-- C8: in both variants a search with limit L returns at most L items,
and the surviving items keep the index rank order of the page — their
ids form a sublist (ordered subsequence) of the ranked ids at positions
offset..offset+L of the match ranking. -/
theorem C8_rank_order_subsequence :
    (∀ (matchFn : String → IndexDoc → Bool) (idx : List IndexDoc) (db : Db)
       (query : String) (item_type aF alF iF uF : Option String)
       (limit offset : Nat) (res : AdvancedSearchResult) (q : Nat),
      Manticore.search_advanced matchFn idx db query item_type aF alF iF uF
        limit offset = .ok (res, q) →
      res.items.length ≤ limit ∧
      List.Sublist (res.items.map itemId)
        (Manticore.pageIds matchFn idx (Manticore.matchExpr query aF alF)
          (Manticore.queryType item_type) limit offset)) ∧
    (∀ (matchFn : String → IndexDoc → Bool) (idx : List IndexDoc) (db : Db)
       (query : String) (item_type aF alF iF uF : Option String)
       (limit offset : Nat),
      (Es.search_advanced matchFn idx db query item_type aF alF iF uF
        limit offset).1.items.length ≤ limit ∧
      List.Sublist
        ((Es.search_advanced matchFn idx db query item_type aF alF iF uF
          limit offset).1.items.map itemId)
        ((Es.hitsPage matchFn idx (Es.searchBody query item_type limit offset)).map
          (fun d : IndexDoc => d.doc_id))) := by
  refine ⟨?_, ?_⟩
  · intro matchFn idx db query item_type aF alF iF uF limit offset res q h
    have hs := mant_items_sublist h
    have hl := hs.length_le
    rw [List.length_map] at hl
    have hp := (pageIds_length matchFn idx (Manticore.matchExpr query aF alF)
      (Manticore.queryType item_type) limit offset).1
    exact ⟨by omega, hs⟩
  · intro matchFn idx db query item_type aF alF iF uF limit offset
    have hs := es_items_sublist matchFn idx db query item_type aF alF iF uF
      limit offset
    have hl := hs.length_le
    rw [List.length_map, List.length_map] at hl
    have hp := (hitsPage_length matchFn idx
      (Es.searchBody query item_type limit offset)).1
    exact ⟨by exact le_trans hl hp, hs⟩

/-- C8 witness: a concrete call returns at most limit items whose ids
form a sublist of the ranked-id page. -/
theorem C8_witness :
    ([SearchResultItem.song beatlesSong].length ≤ 10) ∧
    List.Sublist ([SearchResultItem.song beatlesSong].map itemId)
      (Manticore.pageIds matchAll idx1 (Manticore.matchExpr "yesterday" none none)
        (Manticore.queryType none) 10 0) := by
  have happ := C8_rank_order_subsequence.1 matchAll idx1 db1 "yesterday" none
    none none none none 10 0 { items := [SearchResultItem.song beatlesSong], total := 1 } 1 (by rfl)
  exact happ

/-- C9: in both variants a typed single-entity lookup returns absent
when the index holds no document for the id, returns absent when the
document's item type differs from the requested entity type, and on a
type match equals the per-type single-row hydration (which itself
returns absent when no relational row exists or the consistency guard
drops it). -/
theorem C9_get_by_id_behavior :
    (∀ (idx : List IndexDoc) (db : Db) (id : String),
      idx.find? (fun d => d.doc_id == id) = none →
      Manticore.get_song_by_id idx db id = .ok none ∧
      Manticore.get_artist_by_id idx db id = .ok none ∧
      Manticore.get_album_by_id idx db id = .ok none ∧
      Es.get_song_by_id idx db id = .ok none ∧
      Es.get_artist_by_id idx db id = .ok none ∧
      Es.get_album_by_id idx db id = .ok none) ∧
    (∀ (idx : List IndexDoc) (db : Db) (id : String) (d : IndexDoc),
      idx.find? (fun d => d.doc_id == id) = some d →
      (d.item_type ≠ "song" →
        Manticore.get_song_by_id idx db id = .ok none ∧
        Es.get_song_by_id idx db id = .ok none) ∧
      (d.item_type ≠ "artist" →
        Manticore.get_artist_by_id idx db id = .ok none ∧
        Es.get_artist_by_id idx db id = .ok none) ∧
      (d.item_type ≠ "album" →
        Manticore.get_album_by_id idx db id = .ok none ∧
        Es.get_album_by_id idx db id = .ok none) ∧
      (d.item_type = "song" →
        Manticore.get_song_by_id idx db id = Manticore.fetch_song_details db id ∧
        Es.get_song_by_id idx db id = Es.fetch_song_details db id) ∧
      (d.item_type = "artist" →
        Manticore.get_artist_by_id idx db id = Manticore.fetch_artist_details db id ∧
        Es.get_artist_by_id idx db id = Es.fetch_artist_details db id) ∧
      (d.item_type = "album" →
        Manticore.get_album_by_id idx db id = Manticore.fetch_album_details db id ∧
        Es.get_album_by_id idx db id = Es.fetch_album_details db id)) ∧
    (∀ (db : Db) (id : String), db.failing = false →
      db.songs.find? (fun r => r.id == id) = none →
      Manticore.fetch_song_details db id = .ok none ∧
      Es.fetch_song_details db id = .ok none) ∧
    (∀ (db : Db) (id : String) (r : SongRow), db.failing = false →
      db.songs.find? (fun r => r.id == id) = some r →
      (stringAgg r.artistNames = "" ∨ stringAgg r.albumNames = "") →
      Manticore.fetch_song_details db id = .ok none ∧
      Es.fetch_song_details db id = .ok none) := by
  refine ⟨?_, ?_, ?_, ?_⟩
  · intro idx db id h
    unfold Manticore.get_song_by_id Manticore.get_artist_by_id
      Manticore.get_album_by_id Es.get_song_by_id Es.get_artist_by_id
      Es.get_album_by_id
    rw [h]
    exact ⟨rfl, rfl, rfl, rfl, rfl, rfl⟩
  · intro idx db id d h
    refine ⟨?_, ?_, ?_, ?_, ?_, ?_⟩
    · intro ht
      unfold Manticore.get_song_by_id Es.get_song_by_id
      rw [h]
      constructor <;> simp [ht]
    · intro ht
      unfold Manticore.get_artist_by_id Es.get_artist_by_id
      rw [h]
      constructor <;> simp [ht]
    · intro ht
      unfold Manticore.get_album_by_id Es.get_album_by_id
      rw [h]
      constructor <;> simp [ht]
    · intro ht
      unfold Manticore.get_song_by_id Es.get_song_by_id
      rw [h]
      constructor <;> simp [ht]
    · intro ht
      unfold Manticore.get_artist_by_id Es.get_artist_by_id
      rw [h]
      constructor <;> simp [ht]
    · intro ht
      unfold Manticore.get_album_by_id Es.get_album_by_id
      rw [h]
      constructor <;> simp [ht]
  · intro db id hok hfind
    unfold Manticore.fetch_song_details Es.fetch_song_details
    constructor <;> simp [hok, hfind]
  · intro db id r hok hfind hguard
    unfold Manticore.fetch_song_details Es.fetch_song_details
    rcases hguard with hg | hg <;> constructor <;> simp [hok, hfind, hg]

/-- C9 witness: the spec's scenario — the all-zero id names no document
and returns absent, and an id whose document is an artist also returns
absent from the song lookup — in both variants. -/
theorem C9_witness :
    Manticore.get_song_by_id idx1 db1 "0000000000000000" = .ok none ∧
    Es.get_song_by_id idx1 db1 "0000000000000000" = .ok none ∧
    Manticore.get_song_by_id idx1 db1 "artist00000000a1" = .ok none ∧
    Es.get_song_by_id idx1 db1 "artist00000000a1" = .ok none := by
  have h1 := C9_get_by_id_behavior.1 idx1 db1 "0000000000000000" (by decide)
  have h2 := C9_get_by_id_behavior.2.1 idx1 db1 "artist00000000a1" artistDoc (by decide)
  exact ⟨h1.1, h1.2.2.2.1, (h2.1 (by decide)).1, (h2.1 (by decide)).2⟩

/-- C10: every entry of a batched hydration map binds a key from the
requested id set to an entity carrying that key as its id, and walking
the ranked id list yields at most one item per ranked id (absent ids
are skipped by the total reassembly walk, never an error). -/
theorem C10_batch_mapping_properties :
    (∀ (db : Db) (ids : List String) (m : List (String × Song)) (q : Nat),
      Manticore.fetch_songs_batch db ids = .ok (m, q) →
      (∀ k s, List.lookup k m = some s → s.id = k ∧ k ∈ ids) ∧
      (ids.filterMap (fun id => List.lookup id m)).length ≤ ids.length) ∧
    (∀ (db : Db) (ids : List String) (m : List (String × Artist)) (q : Nat),
      Manticore.fetch_artists_batch db ids = .ok (m, q) →
      ∀ k a, List.lookup k m = some a → a.id = k ∧ k ∈ ids) ∧
    (∀ (db : Db) (ids : List String) (m : List (String × Album)) (q : Nat),
      Manticore.fetch_albums_batch db ids = .ok (m, q) →
      ∀ k al, List.lookup k m = some al → al.id = k ∧ k ∈ ids) := by
  refine ⟨?_, ?_, ?_⟩
  · intro db ids m q h
    refine ⟨fun k s hl => ⟨(songs_batch_lookup h hl).1, (songs_batch_lookup h hl).2.1⟩, ?_⟩
    exact List.length_filterMap_le _ _
  · intro db ids m q h k a hl
    exact ⟨(artists_batch_lookup h hl).1, (artists_batch_lookup h hl).2⟩
  · intro db ids m q h k al hl
    exact ⟨(albums_batch_lookup h hl).1, (albums_batch_lookup h hl).2.1⟩

/-- C10 witness: a concrete batched fetch maps the requested id to the
song carrying that id. -/
theorem C10_witness :
    beatlesSong.id = "song0000000000s1" ∧
    "song0000000000s1" ∈ ["song0000000000s1"] := by
  have happ := C10_batch_mapping_properties.1 db1 ["song0000000000s1"]
    [("song0000000000s1", beatlesSong)] 1 (by rfl)
  exact happ.1 "song0000000000s1" beatlesSong (by rfl)
